import Mathlib

/-!
Verification of the Teamcast ensemble-forecast pipeline (`app.py`).

The pipeline loads a CSV of forecast rows, normalizes types, synthesizes the
"Absolute Error" column when missing, restricts to a 14-day window anchored
at "today", and produces two output tables: the per-day forecast distribution
and a ranking of forecasters plus two synthetic ensemble rows by mean
absolute error.

The embedding below mirrors the pandas code: missing values (NaN / NaT) are
`Option.none`, numeric cells are rationals, calendar days are integers.
pandas yields NaN for the mean of an empty column; in this development every
mean that a theorem talks about is taken over a nonempty list, so `mean` may
return the junk value 0 on `[]` without affecting any statement.
-/

namespace Teamcast

/-- Absolute value as pandas `.abs()` computes it, written with an `if` so
that the kernel can evaluate it on concrete rationals. -/
def ratAbs (q : ℚ) : ℚ := if q < 0 then -q else q

theorem ratAbs_nonneg (q : ℚ) : 0 ≤ ratAbs q := by
  unfold ratAbs
  split
  · linarith
  · linarith

/-- One row of the loaded CSV after type normalization (`load_data`,
`app.py` lines 25-32): `Date` parsed leniently and truncated to the calendar
day `Forecast date`, `Pseudonym` as an optional string, and the numeric
columns coerced with missing values as `none`. -/
structure ForecastRecord where
  forecastDate : Option Int
  pseudonym : Option String
  forecastedValue : Option ℚ
  actualValue : Option ℚ
  absoluteError : Option ℚ
deriving Repr, DecidableEq

/-- The error synthesizer of `load_data` (`app.py` lines 35-41), per row.
`hasErrCol = false` is the branch where the source has no "Absolute Error"
column: the column is created as `(Forecasted value - Actual value).abs()`,
which is missing exactly when either operand is missing.  `hasErrCol = true`
is the branch where the column exists: a present value is kept, and a missing
value is filled from the two operands when both are present. -/
def synthAbsError (hasErrCol : Bool) (r : ForecastRecord) : ForecastRecord :=
  if hasErrCol then
    match r.absoluteError with
    | some _ => r
    | none =>
      match r.forecastedValue, r.actualValue with
      | some f, some a => { r with absoluteError := some (ratAbs (f - a)) }
      | _, _ => r
  else
    { r with absoluteError :=
        match r.forecastedValue, r.actualValue with
        | some f, some a => some (ratAbs (f - a))
        | _, _ => none }

/-- The error synthesizer applied to the whole frame. -/
def synthAll (hasErrCol : Bool) (recs : List ForecastRecord) : List ForecastRecord :=
  recs.map (synthAbsError hasErrCol)

/-- The window predicate of `app.py` line 50: `Forecast date` lies in the
closed interval `[anchor - 14, anchor]`; a missing date (NaT) compares false
in pandas and so is excluded. -/
def inWindow (anchor : Int) (r : ForecastRecord) : Bool :=
  match r.forecastDate with
  | some d => anchor - 14 ≤ d && d ≤ anchor
  | none => false

/-- `df_recent` (`app.py` lines 48-50): the rows of the loaded frame whose
forecast date falls in the trailing 14-day window. -/
def df_recent (anchor : Int) (recs : List ForecastRecord) : List ForecastRecord :=
  recs.filter (inWindow anchor)

/-- pandas column mean. -/
def mean (xs : List ℚ) : ℚ := xs.sum / (xs.length : ℚ)

/-- pandas column median: middle element of the sorted values, or the average
of the two middle elements for an even count. -/
def median (xs : List ℚ) : ℚ :=
  let s := List.insertionSort (· ≤ ·) xs
  if xs.length % 2 = 1 then s.getD (xs.length / 2) 0
  else (s.getD (xs.length / 2 - 1) 0 + s.getD (xs.length / 2) 0) / 2

/-- `valid` (`app.py` line 100): rows where both `Forecasted value` and
`Actual value` are present. -/
def validRecs (recs : List ForecastRecord) : List ForecastRecord :=
  recs.filter (fun r => r.forecastedValue.isSome && r.actualValue.isSome)

/-- The rows of `valid` that fall in the group of calendar day `d`
(pandas `groupby("Forecast date")` keeps intra-group input order and drops
missing keys). -/
def dayRecords (recs : List ForecastRecord) (d : Int) : List ForecastRecord :=
  (validRecs recs).filter (fun r => r.forecastDate == some d)

/-- The group keys of `valid.groupby("Forecast date")`: the distinct present
forecast dates, in ascending order as pandas emits them. -/
def dailyKeys (recs : List ForecastRecord) : List Int :=
  List.insertionSort (· ≤ ·) ((validRecs recs).filterMap ForecastRecord.forecastDate).dedup

/-- One row of the `daily` frame (`app.py` lines 102-110). -/
structure DailySummary where
  forecastDate : Int
  mean_fc : ℚ
  median_fc : ℚ
  actual : ℚ
  meanError : ℚ
  medianError : ℚ
deriving Repr, DecidableEq

/-- The aggregation of one day group (`app.py` lines 104-110): mean and
median of the group's forecasts, `actual` from the group's first row in
input order, and the two ensemble errors against that actual. -/
def mkDailySummary (recs : List ForecastRecord) (d : Int) : DailySummary :=
  let g := dayRecords recs d
  let fvs := g.filterMap ForecastRecord.forecastedValue
  let act := (g.head?.bind ForecastRecord.actualValue).getD 0
  { forecastDate := d
    mean_fc := mean fvs
    median_fc := median fvs
    actual := act
    meanError := ratAbs (mean fvs - act)
    medianError := ratAbs (median fvs - act) }

/-- `daily` (`app.py` lines 102-110): one summary per group key. -/
def daily (recs : List ForecastRecord) : List DailySummary :=
  (dailyKeys recs).map (mkDailySummary recs)

/-- One row of the ranking table. -/
structure RankingRow where
  name : String
  averageError : ℚ
deriving Repr, DecidableEq

/-- Rows usable for the per-forecaster ranking (`app.py` line 92):
`dropna(subset=["Pseudonym", "Absolute Error"])`. -/
def errRecs (recs : List ForecastRecord) : List ForecastRecord :=
  recs.filter (fun r => r.pseudonym.isSome && r.absoluteError.isSome)

/-- The per-forecaster mean-absolute-error table computed from an already
filtered base (`app.py` lines 90-96): group keys in pandas' sorted order,
one row per pseudonym with the mean of its `Absolute Error` values. -/
def rankingFromBase (base : List ForecastRecord) : List RankingRow :=
  (List.insertionSort (· ≤ ·) (base.filterMap ForecastRecord.pseudonym).dedup).map
    (fun n =>
      { name := n
        averageError :=
          mean ((base.filter (fun r => r.pseudonym == some n)).filterMap
            ForecastRecord.absoluteError) })

/-- `per_stream` (`app.py` lines 90-96). -/
def per_stream (recs : List ForecastRecord) : List RankingRow :=
  rankingFromBase (errRecs recs)

/-- `ensemble_rows` (`app.py` lines 101-117): the two synthetic rows,
emitted only when `valid` is nonempty. -/
def ensemble_rows (recs : List ForecastRecord) : List RankingRow :=
  if validRecs recs = [] then []
  else
    [ { name := "Mean of ensemble"
        averageError := mean ((daily recs).map DailySummary.meanError) },
      { name := "Median of ensemble"
        averageError := mean ((daily recs).map DailySummary.medianError) } ]

/-- The comparison used to sort the ranking table. -/
def byAvgError (a b : RankingRow) : Prop := a.averageError ≤ b.averageError

instance : DecidableRel byAvgError := fun a b =>
  inferInstanceAs (Decidable (a.averageError ≤ b.averageError))

instance : IsTotal RankingRow byAvgError := ⟨fun x y => le_total x.averageError y.averageError⟩

instance : IsTrans RankingRow byAvgError := ⟨fun _ _ _ => le_trans⟩

/-- `summary` (`app.py` lines 119-120): forecaster rows and ensemble rows
concatenated and sorted ascending by `Average Error`. -/
def summary (recs : List ForecastRecord) : List RankingRow :=
  List.insertionSort byAvgError (per_stream recs ++ ensemble_rows recs)

/-- An output table as seen by the visualization consumer: either an
explicit no-data message (`st.warning`) or a list of rows. -/
inductive Table (α : Type) where
  | noData (msg : String)
  | rows (entries : List α)
deriving Repr, DecidableEq

/-- Table A, the distribution view (`app.py` lines 55-81): degrades to a
warning when the window is empty or holds no forecast values, else renders
the windowed rows that carry a forecast value. -/
def tableA (anchor : Int) (recs : List ForecastRecord) : Table ForecastRecord :=
  let w := df_recent anchor recs
  if w = [] ∨ w.filterMap ForecastRecord.forecastedValue = [] then
    Table.noData "No forecast data available for the last 14 days."
  else
    Table.rows (w.filter (fun r => r.forecastedValue.isSome))

/-- Table B, the ranking view (`app.py` lines 86-145): degrades to a warning
when the window is empty or holds no error values, and again when the
combined summary table is empty; else renders the summary. -/
def tableB (anchor : Int) (recs : List ForecastRecord) : Table RankingRow :=
  let w := df_recent anchor recs
  if w = [] ∨ w.filterMap ForecastRecord.absoluteError = [] then
    Table.noData "No error data available to calculate average errors."
  else if summary w = [] then
    Table.noData "Insufficient data to compute the error summary."
  else
    Table.rows (summary w)

/-- A raw CSV cell: blank, text, a numeric value, or a parsed timestamp
(hours, truncated to a calendar day by the loader). -/
inductive Cell where
  | blank
  | str (s : String)
  | num (q : ℚ)
  | time (t : Int)
deriving Repr, DecidableEq

/-- Lenient numeric coercion of a cell (`pd.to_numeric(errors="coerce")`):
anything non-numeric becomes missing. -/
def Cell.toNum : Cell → Option ℚ
  | Cell.num q => some q
  | _ => none

/-- Lenient string coercion of a cell. -/
def Cell.toName : Cell → Option String
  | Cell.str s => some s
  | _ => none

/-- Lenient timestamp coercion of a cell (`pd.to_datetime(errors="coerce")`):
anything unparseable becomes missing. -/
def Cell.toTime : Cell → Option Int
  | Cell.time t => some t
  | _ => none

/-- A raw CSV row: a column-name-to-cell association list. -/
def RawRow : Type := List (String × Cell)

/-- Look a field up under a list of candidate column names, trying each name
in order; a name absent from the row falls through to the next candidate. -/
def lookupCol (row : RawRow) : List String → Option Cell
  | [] => none
  | c :: cs =>
    match List.lookup c row with
    | some cell => some cell
    | none => lookupCol row cs

/-- Modelled from the spec: the configurable column-name mapping of §6/§9
("a single configurable column-mapping table consumed by the Record
Loader"); `src/app.py` hardcodes one schema variant, the unified
schema-profile loader of the spec is not in `src/`. -/
structure SchemaMapping where
  timestampCols : List String
  forecasterCols : List String
  forecastCols : List String
  actualCols : List String
  errorCols : List String

/-- Modelled from the spec: the default mapping tolerating the column-name
variants "Date"/"Forecast date" and "Pseudonym"/"Stream" named in §6. -/
def defaultSchema : SchemaMapping :=
  { timestampCols := ["Date", "Forecast date"]
    forecasterCols := ["Pseudonym", "Stream"]
    forecastCols := ["Forecasted value"]
    actualCols := ["Actual value"]
    errorCols := ["Absolute Error"] }

/-- Modelled from the spec: the Record Loader of §4.1 under a schema mapping.
Each field is extracted under the mapping's candidate names and coerced
leniently; a missing column or unparseable cell degrades the field to
missing, never failing the row.  `forecastDate` is derived from the
timestamp by truncation to the calendar day. -/
def loadRecord (m : SchemaMapping) (row : RawRow) : ForecastRecord :=
  { forecastDate := ((lookupCol row m.timestampCols).bind Cell.toTime).map (fun t => Int.ediv t 24)
    pseudonym := (lookupCol row m.forecasterCols).bind Cell.toName
    forecastedValue := (lookupCol row m.forecastCols).bind Cell.toNum
    actualValue := (lookupCol row m.actualCols).bind Cell.toNum
    absoluteError := (lookupCol row m.errorCols).bind Cell.toNum }

/-- Modelled from the spec: the whole load — every raw row yields exactly one
record, so row-level malformation never fails the load. -/
def loadRecords (m : SchemaMapping) (rows : List RawRow) : List ForecastRecord :=
  rows.map (loadRecord m)

/-! ### Error synthesis (claims C1-C3) -/

/-- Per-record idempotence of the error synthesizer: a second pass (with the
error column now present) changes nothing. -/
theorem synthAbsError_idem (b : Bool) (r : ForecastRecord) :
    synthAbsError true (synthAbsError b r) = synthAbsError b r := by
  cases b <;>
    rcases hA : r.absoluteError with _ | v <;>
      rcases hF : r.forecastedValue with _ | f <;>
        rcases hV : r.actualValue with _ | a <;>
          simp [synthAbsError, hA, hF, hV]

/-- A record of the source carrying a negative "Absolute Error" value. -/
def negErrRec : ForecastRecord :=
  { forecastDate := some 10
    pseudonym := some "A"
    forecastedValue := some 100
    actualValue := some 80
    absoluteError := some (-5) }

/-- Claim C1 fails as stated: a source row whose "Absolute Error" column
holds -5 (with both operand values present) is carried into the loaded
output unchanged, so a present absoluteError can be negative. -/
theorem claim_C1_counterexample :
    ∃ r ∈ synthAll true [negErrRec], ∃ e, r.absoluteError = some e ∧ e < 0 := by
  refine ⟨negErrRec, ?_, -5, rfl, by norm_num⟩
  simp [synthAll, synthAbsError, negErrRec]

/-- Claim C1 (amended): every absoluteError present after loading is either
non-negative — a value synthesized as the absolute difference — or exactly
the value carried over from the source's Absolute Error column, which is
kept as-is and may be negative. -/
theorem claim_C1_amended (b : Bool) (r : ForecastRecord) (e : ℚ)
    (h : (synthAbsError b r).absoluteError = some e) :
    0 ≤ e ∨ r.absoluteError = some e := by
  cases b <;>
    rcases hA : r.absoluteError with _ | v <;>
      rcases hF : r.forecastedValue with _ | f <;>
        rcases hV : r.actualValue with _ | a <;>
          simp [synthAbsError, hA, hF, hV] at h <;>
          first
            | exact Or.inl (h ▸ ratAbs_nonneg (f - a))
            | exact Or.inr (congrArg some h)

/-- Witness for the amended C1 at a concrete synthesized row. -/
theorem claim_C1_amended_witness :
    0 ≤ (20 : ℚ) ∨
      (ForecastRecord.mk (some 10) (some "A") (some 100) (some 80) none).absoluteError =
        some 20 :=
  claim_C1_amended true (ForecastRecord.mk (some 10) (some "A") (some 100) (some 80) none) 20
    (by norm_num [synthAbsError, ratAbs])

/-- Claim C2: a record with missing absoluteError and both operands present
gets absoluteError = |forecastedValue - actualValue| synthesized; a record
with a missing operand keeps absoluteError missing.  The synthesizer is a
total function, so no error is raised in either case. -/
theorem claim_C2 (b : Bool) (r : ForecastRecord) :
    (∀ f a, r.absoluteError = none → r.forecastedValue = some f → r.actualValue = some a →
        (synthAbsError b r).absoluteError = some (ratAbs (f - a))) ∧
    (r.absoluteError = none → (r.forecastedValue = none ∨ r.actualValue = none) →
        (synthAbsError b r).absoluteError = none) := by
  constructor
  · intro f a hA hF hV
    cases b <;> simp [synthAbsError, hA, hF, hV]
  · intro hA hmiss
    cases b <;>
      rcases hF : r.forecastedValue with _ | f <;>
        rcases hV : r.actualValue with _ | a <;>
          simp_all [synthAbsError]

/-- Witness for C2: forecastedValue = 100, actualValue = 80 synthesizes
absoluteError = 20, and a row missing forecastedValue stays missing. -/
theorem claim_C2_witness :
    (synthAbsError false (ForecastRecord.mk (some 10) (some "A") (some 100) (some 80) none)).absoluteError =
        some (ratAbs (100 - 80)) ∧
    ratAbs ((100 : ℚ) - 80) = 20 ∧
    (synthAbsError true (ForecastRecord.mk (some 10) (some "A") none (some 80) none)).absoluteError =
        none :=
  ⟨(claim_C2 false (ForecastRecord.mk (some 10) (some "A") (some 100) (some 80) none)).1
      100 80 rfl rfl rfl,
    by norm_num [ratAbs],
    (claim_C2 true (ForecastRecord.mk (some 10) (some "A") none (some 80) none)).2
      rfl (Or.inl rfl)⟩

/-- Claim C3: running the synthesis step twice over a record sequence equals
running it once (the second run sees the error column as present), and a
value validly supplied by the source is never clobbered. -/
theorem claim_C3 (b : Bool) (recs : List ForecastRecord) :
    synthAll true (synthAll b recs) = synthAll b recs ∧
    ∀ r ∈ recs, ∀ v, r.absoluteError = some v →
      (synthAbsError true r).absoluteError = some v := by
  constructor
  · unfold synthAll
    rw [List.map_map]
    exact List.map_congr_left (fun r _ => synthAbsError_idem b r)
  · intro r _ v hv
    simp [synthAbsError, hv]

/-- Witness for C3 at a one-row sequence whose source supplied the value 7. -/
theorem claim_C3_witness :
    synthAll true (synthAll true [ForecastRecord.mk (some 10) (some "B") (some 100) (some 80) (some 7)]) =
        synthAll true [ForecastRecord.mk (some 10) (some "B") (some 100) (some 80) (some 7)] ∧
    (synthAbsError true (ForecastRecord.mk (some 10) (some "B") (some 100) (some 80) (some 7))).absoluteError =
        some 7 :=
  ⟨(claim_C3 true [ForecastRecord.mk (some 10) (some "B") (some 100) (some 80) (some 7)]).1,
    (claim_C3 true [ForecastRecord.mk (some 10) (some "B") (some 100) (some 80) (some 7)]).2
      (ForecastRecord.mk (some 10) (some "B") (some 100) (some 80) (some 7))
      (List.mem_singleton.mpr rfl) 7 rfl⟩

/-! ### Window filter (claim C4) -/

/-- Claim C4: the window filter returns a sublist of the input (records are
passed through unchanged), and a record is in the output exactly when it is
an input record whose forecastDate is present and lies in the closed
interval [anchor - 14, anchor]; records with a missing forecastDate are
excluded. -/
theorem claim_C4 (anchor : Int) (recs : List ForecastRecord) :
    (df_recent anchor recs).Sublist recs ∧
    ∀ r, r ∈ df_recent anchor recs ↔
      (r ∈ recs ∧ ∃ d, r.forecastDate = some d ∧ anchor - 14 ≤ d ∧ d ≤ anchor) := by
  refine ⟨List.filter_sublist recs, fun r => ?_⟩
  rw [df_recent, List.mem_filter]
  constructor
  · rintro ⟨hm, hw⟩
    refine ⟨hm, ?_⟩
    unfold inWindow at hw
    rcases hd : r.forecastDate with _ | d
    · rw [hd] at hw
      simp at hw
    · rw [hd] at hw
      simp at hw
      exact ⟨d, rfl, by omega, hw.2⟩
  · rintro ⟨hm, d, hd, h1, h2⟩
    refine ⟨hm, ?_⟩
    unfold inWindow
    rw [hd]
    simp [h1, h2]

/-- Witness for C4: a record dated day 10 passes the filter anchored at
day 20. -/
theorem claim_C4_witness :
    ForecastRecord.mk (some 10) (some "A") (some 100) (some 80) none ∈
      df_recent 20 [ForecastRecord.mk (some 10) (some "A") (some 100) (some 80) none] :=
  ((claim_C4 20 [ForecastRecord.mk (some 10) (some "A") (some 100) (some 80) none]).2 _).mpr
    ⟨List.mem_singleton.mpr rfl, 10, rfl, by decide, by decide⟩

/-! ### Daily ensemble aggregation (claim C5) -/

/-- The records qualifying for day `d`'s ensemble group, straight from the
input in input order: forecastDate present and equal to `d`, and both
forecastedValue and actualValue present. -/
def qualifying (recs : List ForecastRecord) (d : Int) : List ForecastRecord :=
  recs.filter (fun r =>
    (r.forecastDate == some d) && (r.forecastedValue.isSome && r.actualValue.isSome))

/-- The two-stage filter of the code (dropna, then group) picks exactly the
qualifying records of the day. -/
theorem dayRecords_eq_qualifying (recs : List ForecastRecord) (d : Int) :
    dayRecords recs d = qualifying recs d := by
  unfold dayRecords validRecs qualifying
  rw [List.filter_filter]

/-- A day is a group key exactly when some input record qualifies for it. -/
theorem mem_dailyKeys (recs : List ForecastRecord) (d : Int) :
    d ∈ dailyKeys recs ↔
      ∃ r ∈ recs, r.forecastDate = some d ∧
        r.forecastedValue.isSome ∧ r.actualValue.isSome := by
  unfold dailyKeys
  rw [(List.perm_insertionSort _ _).mem_iff, List.mem_dedup, List.mem_filterMap]
  constructor
  · rintro ⟨r, hr, hd⟩
    rw [validRecs, List.mem_filter] at hr
    refine ⟨r, hr.1, hd, ?_, ?_⟩ <;> simp_all
  · rintro ⟨r, hr, hd, hf, ha⟩
    refine ⟨r, ?_, hd⟩
    rw [validRecs, List.mem_filter]
    exact ⟨hr, by simp [hf, ha]⟩

theorem dailyKeys_nodup (recs : List ForecastRecord) : (dailyKeys recs).Nodup :=
  ((List.perm_insertionSort _ _).nodup_iff).mpr (List.nodup_dedup _)

theorem daily_map_forecastDate (recs : List ForecastRecord) :
    (daily recs).map DailySummary.forecastDate = dailyKeys recs := by
  unfold daily
  rw [List.map_map]
  calc (dailyKeys recs).map (DailySummary.forecastDate ∘ mkDailySummary recs)
      = (dailyKeys recs).map id := List.map_congr_left (fun d _ => rfl)
    _ = dailyKeys recs := List.map_id _

/-- Claim C5: the aggregator emits exactly one summary per day that has at
least one qualifying record (days with none are omitted, not zero-filled);
each summary's mean and median are taken over the qualifying records'
forecastedValue, and its actual is the actualValue of the first qualifying
record in input order.  The aggregator is a total function, so divergent
actual values within a day raise no error. -/
theorem claim_C5 (recs : List ForecastRecord) :
    ((daily recs).map DailySummary.forecastDate).Nodup ∧
    (∀ d : Int, (∃ s ∈ daily recs, s.forecastDate = d) ↔
      ∃ r ∈ recs, r.forecastDate = some d ∧
        r.forecastedValue.isSome ∧ r.actualValue.isSome) ∧
    (∀ s ∈ daily recs,
      s.mean_fc =
        mean ((qualifying recs s.forecastDate).filterMap ForecastRecord.forecastedValue) ∧
      s.median_fc =
        median ((qualifying recs s.forecastDate).filterMap ForecastRecord.forecastedValue) ∧
      (qualifying recs s.forecastDate).head?.bind ForecastRecord.actualValue =
        some s.actual) := by
  refine ⟨?_, ?_, ?_⟩
  · rw [daily_map_forecastDate]
    exact dailyKeys_nodup recs
  · intro d
    rw [← mem_dailyKeys]
    constructor
    · rintro ⟨s, hs, rfl⟩
      unfold daily at hs
      rcases List.mem_map.mp hs with ⟨k, hk, rfl⟩
      exact hk
    · intro hd
      exact ⟨mkDailySummary recs d, List.mem_map.mpr ⟨d, hd, rfl⟩, rfl⟩
  · intro s hs
    unfold daily at hs
    rcases List.mem_map.mp hs with ⟨d, hd, rfl⟩
    refine ⟨?_, ?_, ?_⟩
    · rw [← dayRecords_eq_qualifying]
      rfl
    · rw [← dayRecords_eq_qualifying]
      rfl
    · show (qualifying recs d).head?.bind ForecastRecord.actualValue =
        some (((dayRecords recs d).head?.bind ForecastRecord.actualValue).getD 0)
      rw [dayRecords_eq_qualifying]
      rcases (mem_dailyKeys recs d).mp hd with ⟨r, hr, hrd, hrf, hra⟩
      have hmem : r ∈ qualifying recs d := by
        unfold qualifying
        rw [List.mem_filter]
        exact ⟨hr, by simp [hrd, hrf, hra]⟩
      rcases hq0 : qualifying recs d with _ | ⟨r0, rest⟩
      · rw [hq0] at hmem
        simp at hmem
      · have hr0 : r0 ∈ qualifying recs d := by
          rw [hq0]
          exact List.mem_cons_self _ _
        have hsome : r0.actualValue.isSome := by
          unfold qualifying at hr0
          rw [List.mem_filter] at hr0
          have h2 := hr0.2
          simp only [Bool.and_eq_true] at h2
          exact h2.2.2
        rcases Option.isSome_iff_exists.mp hsome with ⟨a, ha⟩
        simp [ha]

/-- Witness for C5: a one-row input dated day 10 yields a summary for
day 10. -/
theorem claim_C5_witness :
    ∃ s ∈ daily [ForecastRecord.mk (some 10) (some "A") (some 100) (some 80) (some 20)],
      s.forecastDate = 10 :=
  ((claim_C5 [ForecastRecord.mk (some 10) (some "A") (some 100) (some 80) (some 20)]).2.1 10).mpr
    ⟨ForecastRecord.mk (some 10) (some "A") (some 100) (some 80) (some 20),
      List.mem_singleton.mpr rfl, rfl, rfl, rfl⟩

/-! ### Ensemble rows (claim C6) -/

/-- On a windowed frame every record has a present forecastDate, so the
code's guard (`valid` nonempty) coincides with the existence of at least one
daily summary. -/
theorem daily_eq_nil_iff (anchor : Int) (recs : List ForecastRecord) :
    daily (df_recent anchor recs) = [] ↔ validRecs (df_recent anchor recs) = [] := by
  constructor
  · intro h
    rcases hv : validRecs (df_recent anchor recs) with _ | ⟨r, rest⟩
    · rfl
    · exfalso
      have hr : r ∈ validRecs (df_recent anchor recs) := by
        rw [hv]
        exact List.mem_cons_self _ _
      have hw : r ∈ df_recent anchor recs := List.mem_of_mem_filter hr
      rw [df_recent, List.mem_filter] at hw
      have hin := hw.2
      unfold inWindow at hin
      rcases hfd : r.forecastDate with _ | d
      · rw [hfd] at hin
        simp at hin
      · have hkey : d ∈ dailyKeys (df_recent anchor recs) := by
          unfold dailyKeys
          rw [(List.perm_insertionSort _ _).mem_iff, List.mem_dedup, List.mem_filterMap]
          exact ⟨r, hr, hfd⟩
        unfold daily at h
        rw [List.map_eq_nil_iff] at h
        rw [h] at hkey
        simp at hkey
  · intro h
    unfold daily dailyKeys
    rw [h]
    rfl

/-- Claim C6: on the windowed frame, the ranking table's ensemble rows are
exactly the two rows "Mean of ensemble" and "Median of ensemble", whose
averageError is the mean over all daily summaries of meanError and
medianError respectively, if and only if at least one daily summary exists;
with no daily summary, no ensemble row is emitted. -/
theorem claim_C6 (anchor : Int) (recs : List ForecastRecord) :
    (daily (df_recent anchor recs) = [] → ensemble_rows (df_recent anchor recs) = []) ∧
    (daily (df_recent anchor recs) ≠ [] →
      ensemble_rows (df_recent anchor recs) =
        [ { name := "Mean of ensemble"
            averageError := mean ((daily (df_recent anchor recs)).map DailySummary.meanError) },
          { name := "Median of ensemble"
            averageError := mean ((daily (df_recent anchor recs)).map DailySummary.medianError) } ]) := by
  constructor
  · intro h
    unfold ensemble_rows
    rw [if_pos ((daily_eq_nil_iff anchor recs).mp h)]
  · intro h
    unfold ensemble_rows
    rw [if_neg (fun hv => h ((daily_eq_nil_iff anchor recs).mpr hv))]

/-- The one-row demonstration input for the C6 witness. -/
def ensembleDemoRecs : List ForecastRecord :=
  [ForecastRecord.mk (some 10) (some "A") (some 100) (some 80) (some 20)]

/-- Witness for C6: one valid record dated day 10, window anchored at
day 20, yields exactly the two ensemble rows. -/
theorem claim_C6_witness :
    ensemble_rows (df_recent 20 ensembleDemoRecs) =
      [ { name := "Mean of ensemble"
          averageError := mean ((daily (df_recent 20 ensembleDemoRecs)).map DailySummary.meanError) },
        { name := "Median of ensemble"
          averageError := mean ((daily (df_recent 20 ensembleDemoRecs)).map DailySummary.medianError) } ] :=
  (claim_C6 20 ensembleDemoRecs).2
    (fun h =>
      List.cons_ne_nil _ _
        ((show daily (df_recent 20 ensembleDemoRecs) =
            [mkDailySummary (df_recent 20 ensembleDemoRecs) 10] from rfl) ▸ h))

/-! ### Ranking table (claim C7) -/

/-- The names of the per-forecaster rows are the distinct pseudonyms of the
filtered base, in pandas' group-key order. -/
theorem rankingFromBase_map_name (base : List ForecastRecord) :
    (rankingFromBase base).map RankingRow.name =
      List.insertionSort (· ≤ ·) (base.filterMap ForecastRecord.pseudonym).dedup := by
  unfold rankingFromBase
  rw [List.map_map]
  calc (List.insertionSort (· ≤ ·) (base.filterMap ForecastRecord.pseudonym).dedup).map
        (RankingRow.name ∘ fun n =>
          { name := n
            averageError :=
              mean ((base.filter (fun r => r.pseudonym == some n)).filterMap
                ForecastRecord.absoluteError) })
      = (List.insertionSort (· ≤ ·) (base.filterMap ForecastRecord.pseudonym).dedup).map id :=
        List.map_congr_left (fun n _ => rfl)
    _ = _ := List.map_id _

/-- Every per-forecaster row name is a pseudonym of some input record. -/
theorem mem_per_stream_name (recs : List ForecastRecord) (n : String)
    (h : n ∈ (per_stream recs).map RankingRow.name) :
    ∃ r ∈ recs, r.pseudonym = some n := by
  rw [per_stream, rankingFromBase_map_name,
    (List.perm_insertionSort _ _).mem_iff, List.mem_dedup, List.mem_filterMap] at h
  rcases h with ⟨r, hr, hn⟩
  exact ⟨r, List.mem_of_mem_filter hr, hn⟩

/-- The ensemble block contributes either no names or exactly the two
synthetic labels. -/
theorem ensemble_rows_map_name (recs : List ForecastRecord) :
    (ensemble_rows recs).map RankingRow.name = [] ∨
    (ensemble_rows recs).map RankingRow.name = ["Mean of ensemble", "Median of ensemble"] := by
  unfold ensemble_rows
  split
  · left
    rfl
  · right
    rfl

/-- An input whose single forecaster is pseudonymed like the synthetic
mean-ensemble row. -/
def clashRecs : List ForecastRecord :=
  [ForecastRecord.mk (some 10) (some "Mean of ensemble") (some 100) (some 80) (some 20)]

/-- Claim C7 fails as stated: a forecaster whose pseudonym is the literal
string "Mean of ensemble" produces a ranking table holding that name twice —
once as the forecaster row, once as the synthetic ensemble row. -/
theorem claim_C7_counterexample :
    ¬ ((summary clashRecs).map RankingRow.name).Nodup := by
  have hperm :
      ((summary clashRecs).map RankingRow.name).Perm
        ((per_stream clashRecs ++ ensemble_rows clashRecs).map RankingRow.name) :=
    (List.perm_insertionSort byAvgError _).map RankingRow.name
  rw [hperm.nodup_iff]
  have hnames : (per_stream clashRecs ++ ensemble_rows clashRecs).map RankingRow.name =
      ["Mean of ensemble", "Mean of ensemble", "Median of ensemble"] := rfl
  rw [hnames]
  decide

/-- Claim C7 (amended): the ranking table is sorted ascending by
averageError, and its names are pairwise distinct provided no input
forecaster is pseudonymed with one of the two synthetic ensemble labels —
the code never disambiguates such a clash. -/
theorem claim_C7_amended (recs : List ForecastRecord)
    (hnames : ∀ r ∈ recs, r.pseudonym ≠ some "Mean of ensemble" ∧
      r.pseudonym ≠ some "Median of ensemble") :
    List.Sorted byAvgError (summary recs) ∧
    ((summary recs).map RankingRow.name).Nodup := by
  constructor
  · unfold summary
    exact List.sorted_insertionSort byAvgError _
  · have hperm :
        ((summary recs).map RankingRow.name).Perm
          ((per_stream recs ++ ensemble_rows recs).map RankingRow.name) :=
      (List.perm_insertionSort byAvgError _).map RankingRow.name
    rw [hperm.nodup_iff, List.map_append]
    apply List.Nodup.append
    · rw [per_stream, rankingFromBase_map_name]
      exact ((List.perm_insertionSort _ _).nodup_iff).mpr (List.nodup_dedup _)
    · rcases ensemble_rows_map_name recs with h | h <;> rw [h]
      · exact List.nodup_nil
      · decide
    · intro n hn1 hn2
      rcases mem_per_stream_name recs n hn1 with ⟨r, hr, hps⟩
      rcases ensemble_rows_map_name recs with h | h <;> rw [h] at hn2
      · simp at hn2
      · rcases List.mem_pair.mp hn2 with rfl | rfl
        · exact (hnames r hr).1 hps
        · exact (hnames r hr).2 hps

/-- The one-forecaster demonstration input for the C7 witness. -/
def plainRecs : List ForecastRecord :=
  [ForecastRecord.mk (some 10) (some "A") (some 100) (some 80) (some 20)]

/-- Witness for the amended C7 at a one-forecaster input with an
unremarkable pseudonym. -/
theorem claim_C7_amended_witness :
    List.Sorted byAvgError (summary plainRecs) ∧
    ((summary plainRecs).map RankingRow.name).Nodup :=
  claim_C7_amended plainRecs
    (by
      intro r hr
      rw [plainRecs, List.mem_singleton] at hr
      subst hr
      exact ⟨by decide, by decide⟩)

/-! ### Schema-configurable loading (claim C8) -/

/-- Claim C8, against the spec-modelled loader: the load never fails — every
raw row yields exactly one record; the "Date"/"Pseudonym" and "Forecast
date"/"Stream" column-name variants load to the same record under the
default mapping; and a row missing every expected column still loads, with
all fields degraded to missing. -/
theorem claim_C8 :
    (∀ rows : List RawRow, (loadRecords defaultSchema rows).length = rows.length) ∧
    (∀ (t : Int) (p : String) (f a : ℚ),
      loadRecord defaultSchema
          [("Date", Cell.time t), ("Pseudonym", Cell.str p),
            ("Forecasted value", Cell.num f), ("Actual value", Cell.num a)] =
        loadRecord defaultSchema
          [("Forecast date", Cell.time t), ("Stream", Cell.str p),
            ("Forecasted value", Cell.num f), ("Actual value", Cell.num a)]) ∧
    loadRecord defaultSchema [] = ForecastRecord.mk none none none none none := by
  refine ⟨fun rows => ?_, fun t p f a => rfl, rfl⟩
  simp [loadRecords]

/-- Witness for C8 at a concrete one-row table in the "Stream" variant. -/
theorem claim_C8_witness :
    (loadRecords defaultSchema
        [[("Forecast date", Cell.time 240), ("Stream", Cell.str "A"),
          ("Forecasted value", Cell.num 100), ("Actual value", Cell.num 80)]]).length = 1 ∧
    loadRecord defaultSchema
        [("Date", Cell.time 240), ("Pseudonym", Cell.str "A"),
          ("Forecasted value", Cell.num 100), ("Actual value", Cell.num 80)] =
      loadRecord defaultSchema
        [("Forecast date", Cell.time 240), ("Stream", Cell.str "A"),
          ("Forecasted value", Cell.num 100), ("Actual value", Cell.num 80)] :=
  ⟨claim_C8.1 _, claim_C8.2.1 240 "A" 100 80⟩

/-! ### Degradation to explicit no-data signals (claim C9) -/

/-- Claim C9: with an empty 14-day window both outputs are the explicit
no-data warnings, and the ranking output never returns an empty row list as
a success — an empty combined table surfaces as a warning instead.  Both
table builders are total functions, so no exception escapes. -/
theorem claim_C9 (anchor : Int) (recs : List ForecastRecord) :
    (df_recent anchor recs = [] →
      tableA anchor recs = Table.noData "No forecast data available for the last 14 days." ∧
      tableB anchor recs = Table.noData "No error data available to calculate average errors.") ∧
    (summary (df_recent anchor recs) = [] →
      ∃ msg, tableB anchor recs = Table.noData msg) ∧
    (∀ rows, tableB anchor recs = Table.rows rows → rows ≠ []) := by
  refine ⟨?_, ?_, ?_⟩
  · intro h
    constructor
    · simp only [tableA]
      rw [if_pos (Or.inl h)]
    · simp only [tableB]
      rw [if_pos (Or.inl h)]
  · intro h2
    simp only [tableB]
    by_cases h1 : (df_recent anchor recs = [] ∨
        (df_recent anchor recs).filterMap ForecastRecord.absoluteError = [])
    · rw [if_pos h1]
      exact ⟨_, rfl⟩
    · rw [if_neg h1, if_pos h2]
      exact ⟨_, rfl⟩
  · intro rows hrows
    simp only [tableB] at hrows
    by_cases h1 : (df_recent anchor recs = [] ∨
        (df_recent anchor recs).filterMap ForecastRecord.absoluteError = [])
    · rw [if_pos h1] at hrows
      exact absurd hrows (by simp)
    · rw [if_neg h1] at hrows
      by_cases h2 : summary (df_recent anchor recs) = []
      · rw [if_pos h2] at hrows
        exact absurd hrows (by simp)
      · rw [if_neg h2] at hrows
        injection hrows with h3
        rw [← h3]
        exact h2

/-- Witness for C9: the empty input has an empty window, and both outputs
degrade to their warnings. -/
theorem claim_C9_witness :
    tableA 0 [] = Table.noData "No forecast data available for the last 14 days." ∧
    tableB 0 [] = Table.noData "No error data available to calculate average errors." :=
  (claim_C9 0 []).1 rfl

/-! ### Records without a forecaster identifier (claim C10) -/

/-- Claim C10: the per-forecaster ranking is unchanged when the records with
a missing pseudonym are dropped from the input (they are silently excluded
by the dropna on Pseudonym), yet any such record with both forecastedValue
and actualValue present still sits in its day's ensemble group, from which
the daily mean/median/actual aggregates are computed. -/
theorem claim_C10 (recs : List ForecastRecord) :
    per_stream recs = per_stream (recs.filter (fun r => r.pseudonym.isSome)) ∧
    ∀ r ∈ recs, r.pseudonym = none → ∀ d, r.forecastDate = some d →
      r.forecastedValue.isSome → r.actualValue.isSome → r ∈ dayRecords recs d := by
  constructor
  · unfold per_stream
    have hbase : errRecs recs = errRecs (recs.filter (fun r => r.pseudonym.isSome)) := by
      unfold errRecs
      rw [List.filter_filter]
      apply List.filter_congr
      intro r _
      cases hp : r.pseudonym <;> simp
    rw [hbase]
  · intro r hr _ d hd hf ha
    rw [dayRecords_eq_qualifying]
    unfold qualifying
    rw [List.mem_filter]
    exact ⟨hr, by simp [hd, hf, ha]⟩

/-- The anonymous demonstration record for the C10 witness. -/
def noNameRec : ForecastRecord := ForecastRecord.mk (some 10) none (some 100) (some 80) none

/-- Witness for C10: an anonymous record with both values present is in its
day's ensemble group. -/
theorem claim_C10_witness : noNameRec ∈ dayRecords [noNameRec] 10 :=
  (claim_C10 [noNameRec]).2 noNameRec (List.mem_singleton.mpr rfl) rfl 10 rfl rfl rfl

end Teamcast
